import Mathlib

/-!
Verification development for the groundwater telemetry analytics backend.

The repository's analytics core lives in `app/services/data_processing.py`
(anomaly detection, trend and pattern analysis) and
`app/services/ml_forecasting.py` (training, prediction, drought risk and
recharge estimation).  The Python code operates on floating-point numbers;
this development embeds it over `ℚ` (exact rational arithmetic), which is the
standard idealization for the statistical formulas involved.  NumPy's
`np.mean`, `np.var`, `np.std` and `np.min` are the usual population
statistics; `np.std` is the square root of the population variance, so tests
of the form `z > 3` with `z = |x - mean| / std` are embedded by the
square-root-free equivalents `9 * var < (x - mean)^2`, and the accompanying
theorems prove these equivalent to the original real-valued comparisons
(using `Real.sqrt`) whenever the variance is nonnegative, which it always is.

The file is organized as: all data-model and operation definitions first,
then the lemmas and theorems about them.
-/

namespace Groundwater

/-! ## Definitions -/

/-! ### Population statistics (numpy `mean`, `var`, `min` over a rational list) -/

/-- Embeds `np.mean(values)`: sum divided by length (0 on the empty list,
which the code never hits on the guarded paths). -/
def mean (l : List ℚ) : ℚ := l.sum / l.length

/-- Embeds `np.var(values)` (population variance); `np.std` is its square
root and is handled through `Real.sqrt` in the theorems. -/
def variance (l : List ℚ) : ℚ :=
  ((l.map (fun x => (x - mean l) ^ 2)).sum) / l.length

/-- Embeds `np.min(values)` on a nonempty list. -/
def listMin (l : List ℚ) : ℚ :=
  match l with
  | [] => 0
  | x :: xs => xs.foldl min x

/-! ### Anomaly Detector (`DataProcessor.detect_anomalies` and
`DataProcessor._create_anomaly_alert`, `app/services/data_processing.py`) -/

/-- Embeds the `AnomalyDetection` record fields that `_create_anomaly_alert`
fills from the computed statistics (the persisted `anomaly_score` is the
z-score `|x - mean| / sqrt var` itself; it is determined by
`expected_value`, `actual_value` and the window variance, so it is not
duplicated as a field here). -/
structure AnomalyRecord where
  anomaly_type : String
  severity : String
  expected_value : ℚ
  actual_value : ℚ
  deriving DecidableEq

/-- Embeds `DataProcessor.detect_anomalies`: with fewer than 10 historical
points (or none at all) it returns without creating anything; with zero
standard deviation (equivalently zero variance) it returns silently;
otherwise it creates an anomaly record exactly when `z > 3.0`, with severity
`high` when `z > 5` else `medium` (`_create_anomaly_alert`), expected value
the window mean and actual value the incoming reading.  The source's tests
`z > 3` and `z > 5` with `z = |x - mean| / sqrt var` are embedded
square-root-free as `9 * var < (x - mean)^2` and `25 * var < (x - mean)^2`;
`detect_anomalies_spec` proves these coincide with the original real-valued
comparisons. -/
def detect_anomalies (current_value : ℚ) (historical : List ℚ) :
    Option AnomalyRecord :=
  if historical.length < 10 then none
  else if variance historical = 0 then none
  else if 9 * variance historical < (current_value - mean historical) ^ 2 then
    some { anomaly_type := "statistical_outlier"
           severity :=
             if 25 * variance historical <
                 (current_value - mean historical) ^ 2
             then "high" else "medium"
           expected_value := mean historical
           actual_value := current_value }
  else none

/-! ### Drought risk (`MLForecastingService.assess_drought_risk`,
`app/services/ml_forecasting.py`) -/

/-- Embeds `np.polyfit(range(7), historical_levels[-7:], 1)[0]`, the
ordinary-least-squares slope of the last seven values against x = 0..6.
With x-mean 3 and `Σ (x-3)^2 = 28` over x = 0..6, and `Σ (x-3) = 0`, the
closed form is `slope = (Σ (i-3) * y_i) / 28`.  The source computes this
only `if len(historical_levels) > 7`, else uses 0. -/
def slope_last7 (levels : List ℚ) : ℚ :=
  if 7 < levels.length then
    (((levels.drop (levels.length - 7)).enum.map
        (fun p => ((p.1 : ℚ) - 3) * p.2)).sum) / 28
  else 0

/-- Embeds the risk-score accumulation block of `assess_drought_risk`
(`risk_score = 0.0` followed by three independent if/elif additions), with
`c` the current level, `μ`/`v` the window mean/variance, `m` the window
minimum and `s` the 7-point trend slope.  The source's first test
`current_level < mean_level - std_level` (with `std = sqrt v`) is embedded
square-root-free as `0 < μ - c ∧ v < (μ - c)^2`;
`assess_drought_risk_window_spec` proves the two equivalent. -/
def riskScore (c μ v m s : ℚ) : ℚ :=
  let r0 : ℚ := 0
  let r1 := if 0 < μ - c ∧ v < (μ - c) ^ 2 then r0 + 3/10
            else if c < μ then r0 + 1/10 else r0
  let r2 := if s < -(1/100) then r1 + 2/10
            else if s < -(1/200) then r1 + 1/10 else r1
  let r3 := if c < m * (11/10) then r2 + 3/10
            else if c < m * (12/10) then r2 + 1/10 else r2
  r3

/-- Modelled from the spec's wording of signal (a): current level below
`mean - std` contributes 0.3, below `mean` alone contributes 0.1 (same
square-root-free test as `riskScore`). -/
def levelDeficitSignal (c μ v : ℚ) : ℚ :=
  if 0 < μ - c ∧ v < (μ - c) ^ 2 then 3/10 else if c < μ then 1/10 else 0

/-- Modelled from the spec's wording of signal (b): trend slope below −0.01
contributes 0.2, below −0.005 contributes 0.1. -/
def trendSignal (s : ℚ) : ℚ :=
  if s < -(1/100) then 2/10 else if s < -(1/200) then 1/10 else 0

/-- Modelled from the spec's wording of signal (c): current level within 10%
of the historical minimum (`c < 1.1 * min`) contributes 0.3, within 20%
(`c < 1.2 * min`) contributes 0.1. -/
def proximitySignal (c m : ℚ) : ℚ :=
  if c < m * (11/10) then 3/10 else if c < m * (12/10) then 1/10 else 0

/-- Embeds the returned/persisted drought assessment fields.
`days_to_drought` is `none` on the `unknown` branches, whose returned dict
carries no such key in the source. -/
structure RiskResult where
  risk_level : String
  risk_score : ℚ
  days_to_drought : Option ℤ
  deriving DecidableEq

/-- Embeds the calls `self._get_recent_data(station_id, sensor_id, days=90)`
(line 425) and `self._get_recent_data(station_id, "water_level", days=days)`
(line 534).  `_get_recent_data` is declared on line 319 with the keyword
parameter `hours`, not `days`, so Python raises
`TypeError: got an unexpected keyword argument` at argument binding, before
the helper body runs — on every call, whatever data the store holds.  The
parameter is the window the store would have returned; the result does not
depend on it. -/
def get_recent_data_days (_would_be_window : List ℚ) :
    Except String (List ℚ) :=
  .error "TypeError: unexpected keyword argument days"

/-- Embeds the body of `MLForecastingService.assess_drought_risk` below the
fetch (lines 427-493) on a window of readings (oldest first, the current
level being the last entry, as in `recent_data[-1]`).  The categorical
level thresholds and the days-to-drought computation follow lines 466-480;
Python's `int(...)` truncation equals `Int.floor` here because
`current - min ≥ 0` and `|slope| > 0` on that branch.  In the source this
block is unreachable: the fetch on line 425 always raises (see
`get_recent_data_days`), so only `assess_drought_risk` below reflects what
the function returns. -/
def assess_drought_risk_window (recent : List ℚ) : RiskResult :=
  if recent = [] then ⟨"unknown", 0, none⟩
  else
    let c := recent.getLastD 0
    let μ := mean recent
    let v := variance recent
    let m := listMin recent
    let s := slope_last7 recent
    let score := riskScore c μ v m s
    let level := if 7/10 ≤ score then "critical"
                 else if 5/10 ≤ score then "high"
                 else if 3/10 ≤ score then "medium"
                 else "low"
    let days : ℤ := if s < 0 then ⌊(c - m) / |s| * 24⌋ else 999
    ⟨level, score, some days⟩

/-- Embeds `MLForecastingService.assess_drought_risk` as a whole: the
fetch outcome feeds the window body, and any exception is caught by the
handler on lines 495-497, which returns
`{"risk_level": "unknown", "risk_score": 0.0}` (no days key).  Because the
source's fetch is `get_recent_data_days` — which always raises — every
actual call takes the handler branch. -/
def assess_drought_risk (fetch : Except String (List ℚ)) : RiskResult :=
  match fetch with
  | .error _ => ⟨"unknown", 0, none⟩
  | .ok recent => assess_drought_risk_window recent

/-! ### Recharge estimation (`MLForecastingService.estimate_recharge`,
`app/services/ml_forecasting.py`) -/

/-- Embeds the recharge result fields returned by `estimate_recharge`. -/
structure RechargeResult where
  recharge_mm : ℚ
  method : String
  deriving DecidableEq

/-- Embeds the body of `MLForecastingService.estimate_recharge` below the
water-level fetch (lines 537-559) on a water level window and rainfall
readings: fewer than 7 level points (the
`not water_data or len(water_data) < 7` guard) yields the
`insufficient_data` result; otherwise
`recharge = max(0, (last - first) * 1000) + sum rainfall`
(the `if rainfall_data else 0` branch coincides with summing the empty
list).  In the source this block is unreachable: the fetch on line 534
always raises (see `get_recent_data_days`), so only `estimate_recharge`
below reflects what the function returns. -/
def estimate_recharge_window (water_levels rainfall : List ℚ) :
    RechargeResult :=
  if water_levels.length < 7 then ⟨0, "insufficient_data"⟩
  else
    ⟨max 0 ((water_levels.getLastD 0 - water_levels.headD 0) * 1000)
        + rainfall.sum,
      "water_balance"⟩

/-- Embeds `MLForecastingService.estimate_recharge` as a whole: the
water-level fetch outcome feeds the window body (together with the
rainfall readings), and any exception is caught by the handler on lines
561-563, which returns `{"recharge_mm": 0.0, "method": "error"}`.  Because
the source's water-level fetch is `get_recent_data_days` — which always
raises — every actual call takes the handler branch. -/
def estimate_recharge (fetch_water : Except String (List ℚ))
    (rainfall : List ℚ) : RechargeResult :=
  match fetch_water with
  | .error _ => ⟨0, "error"⟩
  | .ok water_levels => estimate_recharge_window water_levels rainfall

/-! ### Trend and Pattern Analyzer (`DataProcessor._detect_patterns`,
`_detect_daily_pattern`, `_detect_weekly_pattern`,
`app/services/data_processing.py`) -/

/-- Embeds the two projections of a reading's timestamp that pattern
detection uses: `timestamp.hour` and `timestamp.weekday()`. -/
structure TS where
  hour : ℕ
  weekday : ℕ
  deriving DecidableEq

/-- Embeds the pattern record fields written by `_store_pattern_data`. -/
structure PatternRecord where
  pattern_type : String
  variance : ℚ
  confidence : ℚ
  deriving DecidableEq

/-- Embeds the `hourly_avg` dict of `_detect_daily_pattern`: one mean per
distinct hour-of-day occurring in the batch (the dict's iteration order
does not affect the variance or the length used downstream). -/
def hourlyMeans (values : List ℚ) (ts : List TS) : List ℚ :=
  ((ts.map TS.hour).dedup).map
    (fun h => mean (((ts.zip values).filter
      (fun p => p.1.hour == h)).map Prod.snd))

/-- Embeds the `daily_avg` dict of `_detect_weekly_pattern`: one mean per
distinct weekday occurring in the batch. -/
def weekdayMeans (values : List ℚ) (ts : List TS) : List ℚ :=
  ((ts.map TS.weekday).dedup).map
    (fun d => mean (((ts.zip values).filter
      (fun p => p.1.weekday == d)).map Prod.snd))

/-- Embeds `DataProcessor._detect_daily_pattern`: requires data from at
least 12 distinct hours, then reports a daily pattern exactly when the
variance of the per-hour means exceeds 10% of the raw variance, with
confidence `min 1 (pattern variance / raw variance)`. -/
def detect_daily_pattern (values : List ℚ) (ts : List TS) :
    Option PatternRecord :=
  let avgs := hourlyMeans values ts
  if avgs.length < 12 then none
  else if variance values * (1/10) < variance avgs then
    some ⟨"daily", variance avgs, min 1 (variance avgs / variance values)⟩
  else none

/-- Embeds `DataProcessor._detect_weekly_pattern`: requires data from at
least 4 distinct weekdays and uses a 5% threshold. -/
def detect_weekly_pattern (values : List ℚ) (ts : List TS) :
    Option PatternRecord :=
  let avgs := weekdayMeans values ts
  if avgs.length < 4 then none
  else if variance values * (1/20) < variance avgs then
    some ⟨"weekly", variance avgs, min 1 (variance avgs / variance values)⟩
  else none

/-- Embeds `DataProcessor._detect_patterns`: with fewer than 24 points no
patterns are reported; otherwise the daily and weekly detectors each
contribute at most one record. -/
def detect_patterns (values : List ℚ) (ts : List TS) : List PatternRecord :=
  if values.length < 24 then []
  else
    (detect_daily_pattern values ts).toList
      ++ (detect_weekly_pattern values ts).toList

/-! ### Forecast training (`MLForecastingService.train_water_level_model`,
`app/services/ml_forecasting.py`) -/

/-- Embeds sklearn's `StandardScaler` state after `fit`: per-column mean
and population variance of the fitted rows.  (`scale_` is the square root
of `var_`, irrational in general, so the numeric `transform` step is kept
as an abstract parameter of the pipeline; the claims verified here concern
which rows the scaler is fitted on and where it is applied.) -/
structure StandardScaler where
  mean_ : List ℚ
  var_ : List ℚ
  deriving DecidableEq

/-- Column `j` of a row-major feature table (all rows have equal width in
the source's numpy array). -/
def column (X : List (List ℚ)) (j : ℕ) : List ℚ :=
  X.map (fun row => row.getD j 0)

/-- Embeds `StandardScaler().fit(X)`: per-column mean and variance of the
fitted rows. -/
def StandardScaler.fit (X : List (List ℚ)) : StandardScaler :=
  ⟨(List.range (X.headD []).length).map (fun j => mean (column X j)),
   (List.range (X.headD []).length).map (fun j => variance (column X j))⟩

/-- Embeds `split_idx = int(len(X) * 0.8)`.  The IEEE double `0.8` is
slightly above `4/5`; for the list lengths arising here the float product
truncates to `4n/5`. -/
def split_idx (n : ℕ) : ℕ := n * 4 / 5

/-- State produced by lines 48-56 of `train_water_level_model`: the
chronological 80/20 split of the feature table and target, the scaler
fitted on the training split, and both splits scaled. -/
structure SplitScale where
  X_train : List (List ℚ)
  X_test : List (List ℚ)
  y_train : List ℚ
  y_test : List ℚ
  scaler : StandardScaler
  X_train_scaled : List (List ℚ)
  X_test_scaled : List (List ℚ)

/-- Embeds lines 48-56 of `train_water_level_model`: chronological split
(`X[:split_idx]` / `X[split_idx:]`, same index for `y`), scaler fitted on
the training rows only (`scaler.fit_transform(X_train)`), then applied to
both splits (`scaler.transform(X_test)`); `transform` abstracts the
numeric `(x - mean_) / sqrt var_` map, which depends only on the fitted
scaler state. -/
def split_and_scale (transform : StandardScaler → List ℚ → List ℚ)
    (X : List (List ℚ)) (y : List ℚ) : SplitScale :=
  let k := split_idx X.length
  let Xtr := X.take k
  let Xte := X.drop k
  let s := StandardScaler.fit Xtr
  ⟨Xtr, Xte, y.take k, y.drop k, s, Xtr.map (transform s),
    Xte.map (transform s)⟩

/-- Embeds the result dict of `train_water_level_model`
(`{status: ...}` with the success payload of line 80). -/
inductive TrainResult where
  | insufficient_data : TrainResult
  | insufficient_features : TrainResult
  | success (mae rmse : ℚ) (training_samples test_samples : ℕ) : TrainResult
  | error (message : String) : TrainResult
  deriving DecidableEq

/-- Embeds `MLForecastingService.train_water_level_model` around its
effectful collaborators: `data` is the list fetched by
`_get_training_data` (which catches its own exceptions and returns `[]`),
`prepare` stands for the pandas feature construction `_prepare_features`
(`none` embeds its `(None, None)` outcome, which covers its internal
exception handler and its `len(df) < 10` guard, matching the caller's
`X is None` test), and `fitEval` stands for the scaling / model fitting /
metric segment inside the outer `try` (its `Except.error` embeds a raised
exception, which the handler on line 88 turns into the `error` status).
`_save_model` swallows its own exceptions and is not a failure source.
Every path returns a structured `TrainResult`: nothing escapes the
boundary. -/
def train_water_level_model {D : Type}
    (transform : StandardScaler → List ℚ → List ℚ)
    (fitEval : List (List ℚ) → List ℚ → List (List ℚ) → List ℚ →
      Except String (ℚ × ℚ))
    (data : List D)
    (prepare : List D → Option (List (List ℚ) × List ℚ)) : TrainResult :=
  if data.length < 100 then .insufficient_data
  else
    match prepare data with
    | none => .insufficient_features
    | some (X, y) =>
      if X.length < 50 then .insufficient_features
      else
        let r := split_and_scale transform X y
        match fitEval r.X_train_scaled r.y_train r.X_test_scaled r.y_test with
        | .error msg => .error msg
        | .ok (mae, rmse) =>
            .success mae rmse r.X_train.length r.X_test.length

/-! ### Prediction (`MLForecastingService.predict_water_level` and
`MLForecastingService.load_model`, `app/services/ml_forecasting.py`) -/

/-- Embeds the per-hour prediction dict appended on line 296 of the
source. -/
structure ForecastPoint where
  predicted_level : ℚ
  confidence_lower : ℚ
  confidence_upper : ℚ
  horizon_hours : ℕ
  deriving DecidableEq

/-- Embeds the hour-by-hour loop of `predict_water_level` (lines 280-308):
`ffn` stands for `_prepare_prediction_features` on the growing context
(`none` embeds its `None` failure outcome, on which the loop breaks), and
`g` for the composition of `scaler.transform` and `model.predict`.  Each
step derives the ±10% band `ci = 0.1 * abs(prediction)` and feeds its own
prediction back into the context. -/
def predict_loop {F : Type} (ffn : List ℚ → ℕ → Option F) (g : F → ℚ) :
    List ℚ → ℕ → ℕ → List ForecastPoint
  | _, _, 0 => []
  | ctx, hour, fuel + 1 =>
    match ffn ctx hour with
    | none => []
    | some feats =>
      let p := g feats
      let ci := (1/10) * |p|
      ⟨p, p - ci, p + ci, hour⟩ ::
        predict_loop ffn g (ctx ++ [p]) (hour + 1) fuel

/-- Embeds `MLForecastingService.load_model`: it reports success exactly
when both the model artifact and the scaler artifact exist on disk
(`os.path.exists(model_file) and os.path.exists(scaler_file)`), in which
case the pair enters the in-memory registry.  (Any exception inside the
body — including the module's missing top-level `os` import — is caught
by its own handler and reported as `False`, i.e. `none`, so the `none`
outcome of this embedding is if anything broader in the source; the
claims settled here use only the no-artifact case, where both agree.) -/
def load_model {M S : Type} (disk_model : Option M) (disk_scaler : Option S) :
    Option (M × S) :=
  match disk_model, disk_scaler with
  | some m, some s => some (m, s)
  | _, _ => none

/-- Embeds `MLForecastingService.predict_water_level` for one
(station, sensor) key: `registry` is the in-memory `self.models` /
`self.scalers` entry for the key; when absent, `load_model` is consulted
(lines 263-266) and a `False` outcome returns `[]`; with no recent seed
readings it returns `[]` (line 274); otherwise it runs the hour-by-hour
loop from hour 1.  The second component is the registry entry after the
call: `predict` never trains, so it can only be the prior entry or the
pair loaded from disk. -/
def predict_water_level {M S F : Type} (ffn : List ℚ → ℕ → Option F)
    (g : M → S → F → ℚ) (registry : Option (M × S))
    (disk_model : Option M) (disk_scaler : Option S)
    (recent : List ℚ) (horizon_hours : ℕ) :
    List ForecastPoint × Option (M × S) :=
  match registry.orElse (fun _ => load_model disk_model disk_scaler) with
  | none => ([], none)
  | some ms =>
    if recent = [] then ([], some ms)
    else (predict_loop ffn (g ms.1 ms.2) recent 1 horizon_hours, some ms)

/-- Concrete batch for exercising the pattern detector: one reading in each
hour of the day, alternating between 0 and 1. -/
def dailyPatternTimes : List TS :=
  [⟨0,0⟩, ⟨1,0⟩, ⟨2,0⟩, ⟨3,0⟩, ⟨4,0⟩, ⟨5,0⟩, ⟨6,0⟩, ⟨7,0⟩, ⟨8,0⟩, ⟨9,0⟩,
   ⟨10,0⟩, ⟨11,0⟩, ⟨12,0⟩, ⟨13,0⟩, ⟨14,0⟩, ⟨15,0⟩, ⟨16,0⟩, ⟨17,0⟩,
   ⟨18,0⟩, ⟨19,0⟩, ⟨20,0⟩, ⟨21,0⟩, ⟨22,0⟩, ⟨23,0⟩]

/-- Values for `dailyPatternTimes`: a pronounced hour-of-day structure. -/
def dailyPatternValues : List ℚ :=
  [0, 1, 0, 1, 0, 1, 0, 1, 0, 1, 0, 1, 0, 1, 0, 1, 0, 1, 0, 1, 0, 1, 0, 1]

/-! ## Lemmas and theorems -/

lemma variance_nonneg (l : List ℚ) : 0 ≤ variance l := by
  unfold variance
  apply div_nonneg
  · apply List.sum_nonneg
    intro x hx
    rcases List.mem_map.mp hx with ⟨a, _, rfl⟩
    positivity
  · exact Nat.cast_nonneg _

/-- For `t, d ≥ 0` and `v > 0`, the z-score test `t < d / sqrt v` of the
source is equivalent to the square-root-free test `t^2 * v < d^2`. -/
lemma lt_div_sqrt_iff (t d v : ℝ) (ht : 0 ≤ t) (hd : 0 ≤ d) (hv : 0 < v) :
    t < d / Real.sqrt v ↔ t ^ 2 * v < d ^ 2 := by
  have hs : 0 < Real.sqrt v := Real.sqrt_pos.mpr hv
  rw [lt_div_iff₀ hs]
  constructor
  · intro h
    have hsq : (t * Real.sqrt v) ^ 2 < d ^ 2 := by
      have h0 : 0 ≤ t * Real.sqrt v := mul_nonneg ht hs.le
      nlinarith
    calc t ^ 2 * v = (t * Real.sqrt v) ^ 2 := by
          rw [mul_pow, Real.sq_sqrt hv.le]
      _ < d ^ 2 := hsq
  · intro h
    have hsq : (t * Real.sqrt v) ^ 2 < d ^ 2 := by
      rw [mul_pow, Real.sq_sqrt hv.le]; exact h
    exact lt_of_pow_lt_pow_left₀ 2 hd hsq

/-- For `v ≥ 0`, the source's test `c < mean - std` is equivalent to the
square-root-free test `0 < mean - c ∧ v < (mean - c)^2`. -/
lemma lt_sub_sqrt_iff (c μ v : ℝ) (_hv : 0 ≤ v) :
    c < μ - Real.sqrt v ↔ 0 < μ - c ∧ v < (μ - c) ^ 2 := by
  rw [lt_sub_comm]
  by_cases hpos : 0 < μ - c
  · rw [Real.sqrt_lt' hpos]
    exact ⟨fun h => ⟨hpos, h⟩, fun h => h.2⟩
  · constructor
    · intro h
      exact absurd (lt_of_le_of_lt (Real.sqrt_nonneg v) h) hpos
    · intro h
      exact absurd h.1 hpos

/-- C1: an anomaly record is created iff the historical window has at least
10 points, its variance (hence standard deviation) is nonzero, and the
z-score `|x - mean| / std` exceeds 3; any created record has severity
`high` iff `z > 5` (and `medium` otherwise), expected value equal to the
window mean, and actual value equal to the incoming reading. -/
theorem detect_anomalies_spec (x : ℚ) (hist : List ℚ) :
    ((detect_anomalies x hist).isSome ↔
      (10 ≤ hist.length ∧ variance hist ≠ 0 ∧
        (3 : ℝ) < |(x : ℝ) - (mean hist : ℚ)| /
          Real.sqrt ((variance hist : ℚ))))
    ∧ (∀ r : AnomalyRecord, detect_anomalies x hist = some r →
        ((r.severity = "high" ↔
            (5 : ℝ) < |(x : ℝ) - (mean hist : ℚ)| /
              Real.sqrt ((variance hist : ℚ)))
          ∧ (r.severity = "high" ∨ r.severity = "medium")
          ∧ r.expected_value = mean hist ∧ r.actual_value = x)) := by
  have hv0 : 0 ≤ variance hist := variance_nonneg hist
  set v : ℚ := variance hist with hv
  set μ : ℚ := mean hist with hμ
  have habs : |(x : ℝ) - (μ : ℚ)| = (((|x - μ| : ℚ) : ℝ)) := by
    push_cast; ring_nf
  by_cases hlen : hist.length < 10
  · constructor
    · simp only [detect_anomalies, if_pos hlen]
      simp only [Option.isSome_none, Bool.false_eq_true, false_iff]
      intro hcon
      omega
    · intro r hr
      simp only [detect_anomalies, if_pos hlen] at hr
      exact absurd hr (by simp)
  · by_cases hvz : v = 0
    · constructor
      · simp only [detect_anomalies, if_neg hlen, ← hv, if_pos hvz]
        simp only [Option.isSome_none, Bool.false_eq_true, false_iff]
        intro hcon
        exact hcon.2.1 hvz
      · intro r hr
        simp only [detect_anomalies, if_neg hlen, ← hv, if_pos hvz] at hr
        exact absurd hr (by simp)
    · have hvpos : (0 : ℚ) < v := lt_of_le_of_ne hv0 (Ne.symm hvz)
      have hvposR : (0 : ℝ) < (v : ℚ) := by exact_mod_cast hvpos
      have hdR : (0 : ℝ) ≤ (((|x - μ| : ℚ) : ℝ)) := by
        exact_mod_cast abs_nonneg (x - μ)
      have bridge : ∀ t : ℚ, 0 ≤ t →
          ((t : ℝ) < |(x : ℝ) - (μ : ℚ)| / Real.sqrt ((v : ℚ)) ↔
            t ^ 2 * v < (x - μ) ^ 2) := by
        intro t ht
        rw [habs, lt_div_sqrt_iff _ _ _ (by exact_mod_cast ht) hdR hvposR]
        rw [show (((|x - μ| : ℚ) : ℝ)) ^ 2 = (((x - μ) ^ 2 : ℚ) : ℝ) by
          push_cast [sq_abs]; ring]
        exact_mod_cast Iff.rfl
      have b3 := bridge 3 (by norm_num)
      have b5 := bridge 5 (by norm_num)
      norm_num at b3 b5
      constructor
      · simp only [detect_anomalies, if_neg hlen, ← hv, ← hμ, if_neg hvz]
        by_cases hz : 9 * v < (x - μ) ^ 2
        · simp only [if_pos hz, Option.isSome_some, true_iff]
          exact ⟨by omega, hvz, b3.mpr hz⟩
        · simp only [if_neg hz, Option.isSome_none, Bool.false_eq_true,
            false_iff]
          intro hcon
          exact hz (b3.mp hcon.2.2)
      · intro r hr
        simp only [detect_anomalies, if_neg hlen, ← hv, ← hμ, if_neg hvz] at hr
        by_cases hz : 9 * v < (x - μ) ^ 2
        · simp only [if_pos hz, Option.some_inj] at hr
          subst hr
          refine ⟨?_, ?_, rfl, rfl⟩
          · by_cases hz5 : 25 * v < (x - μ) ^ 2
            · simp only [if_pos hz5, true_iff]
              exact b5.mpr hz5
            · simp only [if_neg hz5]
              constructor
              · intro hcon
                exact absurd hcon (by decide)
              · intro hcon
                exact absurd (b5.mp hcon) hz5
          · by_cases hz5 : 25 * v < (x - μ) ^ 2
            · simp [if_pos hz5]
            · simp [if_neg hz5]
        · simp only [if_neg hz] at hr
          exact absurd hr (by simp)

/-- Witness for `detect_anomalies_spec`: a 10-point window `[0,...,0,1]`
with incoming reading 10 produces an anomaly, and the theorem transfers the
square-root-free evaluation to the real z-score bound `z > 5`. -/
theorem detect_anomalies_spec_witness :
    (detect_anomalies 10 [0, 0, 0, 0, 0, 0, 0, 0, 0, 1]).isSome = true ∧
      (5 : ℝ) <
        |(10 : ℝ) - (mean [0, 0, 0, 0, 0, 0, 0, 0, 0, 1] : ℚ)| /
          Real.sqrt ((variance [0, 0, 0, 0, 0, 0, 0, 0, 0, 1] : ℚ)) := by
  have hmean : mean [0, 0, 0, 0, 0, 0, 0, 0, 0, 1] = 1/10 := by
    norm_num [mean]
  have hvar : variance [0, 0, 0, 0, 0, 0, 0, 0, 0, 1] = 9/100 := by
    norm_num [variance, hmean]
  have hsome : detect_anomalies 10 [0, 0, 0, 0, 0, 0, 0, 0, 0, 1] =
      some { anomaly_type := "statistical_outlier", severity := "high",
             expected_value := 1/10, actual_value := 10 } := by
    norm_num [detect_anomalies, hmean, hvar]
  refine ⟨by rw [hsome]; rfl, ?_⟩
  exact ((detect_anomalies_spec 10 [0, 0, 0, 0, 0, 0, 0, 0, 0, 1]).2 _
    hsome).1.mp rfl

/-- The sequential `+=` accumulation of `assess_drought_risk` is the sum of
the three independent capped signals. -/
lemma riskScore_eq_sum (c μ v m s : ℚ) :
    riskScore c μ v m s =
      levelDeficitSignal c μ v + trendSignal s + proximitySignal c m := by
  unfold riskScore levelDeficitSignal trendSignal proximitySignal
  split_ifs <;> ring

/-- The risk score always lies in `[0, 1]` (its maximum attainable value is
`0.3 + 0.2 + 0.3 = 0.8`). -/
lemma riskScore_bounds (c μ v m s : ℚ) :
    0 ≤ riskScore c μ v m s ∧ riskScore c μ v m s ≤ 1 := by
  unfold riskScore
  split_ifs <;> norm_num

lemma levelDeficitSignal_antitone (c₁ c₂ μ v : ℚ) (h : c₂ ≤ c₁) :
    levelDeficitSignal c₁ μ v ≤ levelDeficitSignal c₂ μ v := by
  unfold levelDeficitSignal
  by_cases hA1 : 0 < μ - c₁ ∧ v < (μ - c₁) ^ 2
  · have hA2 : 0 < μ - c₂ ∧ v < (μ - c₂) ^ 2 := by
      constructor
      · linarith [hA1.1]
      · nlinarith [hA1.1, hA1.2]
    rw [if_pos hA1, if_pos hA2]
  · rw [if_neg hA1]
    by_cases hB1 : c₁ < μ
    · rw [if_pos hB1]
      by_cases hA2 : 0 < μ - c₂ ∧ v < (μ - c₂) ^ 2
      · rw [if_pos hA2]; norm_num
      · rw [if_neg hA2, if_pos (lt_of_le_of_lt h hB1)]
    · rw [if_neg hB1]
      split_ifs <;> norm_num

lemma proximitySignal_antitone (c₁ c₂ m : ℚ) (h : c₂ ≤ c₁) :
    proximitySignal c₁ m ≤ proximitySignal c₂ m := by
  unfold proximitySignal
  by_cases h1 : c₁ < m * (11/10)
  · rw [if_pos h1, if_pos (lt_of_le_of_lt h h1)]
  · rw [if_neg h1]
    by_cases h2 : c₁ < m * (12/10)
    · rw [if_pos h2]
      split_ifs <;> linarith
    · rw [if_neg h2]
      split_ifs <;> norm_num

/-- Characterization of the (unreachable) window body of
`assess_drought_risk`: on a nonempty window its score is the sum of the
three independent capped signals, the embedded level-deficit test
coincides with the source's `current < mean - std`, the categorical level
follows the 0.7/0.5/0.3 thresholds, and `days_to_drought` is the sentinel
999 whenever the 7-point slope is not negative. -/
lemma assess_drought_risk_window_spec (recent : List ℚ) (hne : recent ≠ []) :
    ((assess_drought_risk_window recent).risk_score =
        levelDeficitSignal (recent.getLastD 0) (mean recent) (variance recent)
          + trendSignal (slope_last7 recent)
          + proximitySignal (recent.getLastD 0) (listMin recent))
    ∧ ((0 < mean recent - recent.getLastD 0 ∧
          variance recent < (mean recent - recent.getLastD 0) ^ 2) ↔
        ((recent.getLastD 0 : ℝ) <
          (mean recent : ℚ) - Real.sqrt ((variance recent : ℚ))))
    ∧ ((assess_drought_risk_window recent).risk_level =
        if 7/10 ≤ (assess_drought_risk_window recent).risk_score
        then "critical"
        else if 5/10 ≤ (assess_drought_risk_window recent).risk_score
        then "high"
        else if 3/10 ≤ (assess_drought_risk_window recent).risk_score
        then "medium"
        else "low")
    ∧ (0 ≤ slope_last7 recent →
        (assess_drought_risk_window recent).days_to_drought = some 999) := by
  have hv0 : 0 ≤ variance recent := variance_nonneg recent
  refine ⟨?_, ?_, ?_, ?_⟩
  · simp only [assess_drought_risk_window, if_neg hne]
    exact riskScore_eq_sum _ _ _ _ _
  · rw [lt_sub_sqrt_iff _ _ _ (by exact_mod_cast hv0)]
    constructor
    · intro h
      exact ⟨by exact_mod_cast h.1, by exact_mod_cast h.2⟩
    · intro h
      exact ⟨by exact_mod_cast h.1, by exact_mod_cast h.2⟩
  · simp only [assess_drought_risk_window, if_neg hne]
  · intro hs
    simp only [assess_drought_risk_window, if_neg hne,
      if_neg (not_lt.mpr hs)]

/-- C2 (code bug): the drought-risk score/level/sentinel computation the
claim describes is dead code.  `assess_drought_risk` fetches its window
with the keyword `days=90` while `_get_recent_data` accepts `hours`, so
every call raises `TypeError` inside the `try` and the handler returns
`{"risk_level": "unknown", "risk_score": 0.0}` — for every input history.
The second conjunct evaluates the unreachable window body on a sample
window, where it does produce the claimed kind of result (score from the
capped signals, `medium` level, sentinel 999), showing the claim matches
the intended computation that the keyword slip disables. -/
theorem assess_drought_risk_typeerror :
    (∀ hist : List ℚ,
      assess_drought_risk (get_recent_data_days hist) =
        ⟨"unknown", 0, none⟩)
    ∧ assess_drought_risk_window [5] = ⟨"medium", 3/10, some 999⟩ := by
  constructor
  · intro hist
    rfl
  · norm_num [assess_drought_risk_window, riskScore, mean, variance,
      listMin, slope_last7]

lemma riskScore_antitone (c₁ c₂ μ v m s : ℚ) (h : c₂ ≤ c₁) :
    riskScore c₁ μ v m s ≤ riskScore c₂ μ v m s := by
  rw [riskScore_eq_sum, riskScore_eq_sum]
  have h1 := levelDeficitSignal_antitone c₁ c₂ μ v h
  have h2 := proximitySignal_antitone c₁ c₂ m h
  linarith

/-- C8 (code bug): the program never computes the drought risk score whose
monotonicity the claim asserts — by the `days=90` keyword slip every call
to `assess_drought_risk` returns the constant fallback score 0.0, so the
first conjunct evaluates the code at its actual fetch outcome for every
input history.  The second conjunct proves the claimed monotonicity for
the (unreachable) accumulation block itself: for fixed window statistics
and fixed trend slope, the lower of any two current levels never scores
less. -/
theorem risk_score_monotone_dead_code :
    (∀ hist : List ℚ,
      (assess_drought_risk (get_recent_data_days hist)).risk_score = 0)
    ∧ (∀ c₁ c₂ μ v m s : ℚ,
        riskScore (max c₁ c₂) μ v m s ≤ riskScore (min c₁ c₂) μ v m s) := by
  constructor
  · intro hist
    rfl
  · intro c₁ c₂ μ v m s
    exact riskScore_antitone (max c₁ c₂) (min c₁ c₂) μ v m s min_le_max

/-- C9: the risk score returned by `assess_drought_risk` lies in `[0, 1]`
for every fetch outcome — in particular for the `TypeError` outcome that
every actual call produces (the handler's constant 0.0), and also on the
unreachable window body for every window (its maximum attainable score is
0.8), so the bound is an invariant of the function as written. -/
theorem risk_score_unit_interval (fetch : Except String (List ℚ)) :
    0 ≤ (assess_drought_risk fetch).risk_score ∧
      (assess_drought_risk fetch).risk_score ≤ 1 := by
  cases fetch with
  | error msg =>
    simp [assess_drought_risk]
  | ok recent =>
    simp only [assess_drought_risk]
    by_cases hne : recent = []
    · subst hne
      simp [assess_drought_risk_window]
    · simp only [assess_drought_risk_window, if_neg hne]
      exact riskScore_bounds _ _ _ _ _

/-- Characterization of the (unreachable) window body of
`estimate_recharge`: with at least 7 level points it returns
`max(0, (last - first) * 1000) + total rainfall` with method
`water_balance` — so a 0.01 m rise with 5 mm total rainfall yields exactly
15.0 mm — and with fewer level points recharge 0 with method
`insufficient_data`. -/
lemma estimate_recharge_window_spec :
    (∀ w r : List ℚ, w.length < 7 →
      estimate_recharge_window w r = ⟨0, "insufficient_data"⟩)
    ∧ (∀ w r : List ℚ, 7 ≤ w.length →
      (estimate_recharge_window w r).recharge_mm =
          max 0 ((w.getLastD 0 - w.headD 0) * 1000) + r.sum ∧
        (estimate_recharge_window w r).method = "water_balance")
    ∧ estimate_recharge_window [10, 10, 10, 10, 10, 10, 10 + 1/100] [2, 3] =
        ⟨15, "water_balance"⟩ := by
  refine ⟨?_, ?_, ?_⟩
  · intro w r h
    simp [estimate_recharge_window, h]
  · intro w r h
    rw [estimate_recharge_window, if_neg (not_lt.mpr h)]
    exact ⟨rfl, rfl⟩
  · have h7 : ¬ ([10, 10, 10, 10, 10, 10, 10 + 1/100] : List ℚ).length < 7 :=
      by simp
    rw [estimate_recharge_window, if_neg h7]
    norm_num

/-- C4 (code bug): the recharge computation the claim describes is dead
code.  `estimate_recharge` fetches its water-level window with the keyword
`days=days` while `_get_recent_data` accepts `hours`, so every call raises
`TypeError` inside the `try` and the handler returns
`{"recharge_mm": 0.0, "method": "error"}` — for every input window and
rainfall series.  The second conjunct evaluates the unreachable window
body at the claim's own example (0.01 m rise, 5 mm rainfall), where it
yields exactly the claimed 15.0 mm, showing the claim matches the intended
computation that the keyword slip disables. -/
theorem estimate_recharge_typeerror :
    (∀ hist rainfall : List ℚ,
      estimate_recharge (get_recent_data_days hist) rainfall = ⟨0, "error"⟩)
    ∧ estimate_recharge_window [10, 10, 10, 10, 10, 10, 10 + 1/100] [2, 3] =
        ⟨15, "water_balance"⟩ := by
  constructor
  · intro hist rainfall
    rfl
  · exact estimate_recharge_window_spec.2.2

lemma detect_weekly_pattern_type (values : List ℚ) (ts : List TS)
    (r : PatternRecord) (h : detect_weekly_pattern values ts = some r) :
    r.pattern_type = "weekly" := by
  simp only [detect_weekly_pattern] at h
  split_ifs at h
  rw [Option.some_inj] at h
  subst h
  rfl

lemma hourlyMeans_length (values : List ℚ) (ts : List TS) :
    (hourlyMeans values ts).length = (ts.map TS.hour).dedup.length :=
  List.length_map _ _

/-- C5: with at least 24 readings, a record with `pattern_type = "daily"`
is produced exactly when the data spans at least 12 distinct hours of the
day and the variance of the per-hour means exceeds 10% of the raw
variance; any such record carries that variance and confidence
`min 1 (pattern variance / raw variance)`; in every other case no daily
record appears in the output. -/
theorem detect_patterns_daily_spec (values : List ℚ) (ts : List TS)
    (_hlen : ts.length = values.length) :
    ((∃ r ∈ detect_patterns values ts, r.pattern_type = "daily") ↔
      (24 ≤ values.length ∧ 12 ≤ (ts.map TS.hour).dedup.length ∧
        variance values * (1/10) < variance (hourlyMeans values ts)))
    ∧ (∀ r ∈ detect_patterns values ts, r.pattern_type = "daily" →
        (r.variance = variance (hourlyMeans values ts) ∧
          r.confidence =
            min 1 (variance (hourlyMeans values ts) / variance values))) := by
  have hlen12 := hourlyMeans_length values ts
  by_cases h24 : values.length < 24
  · have hdp : detect_patterns values ts = [] := by
      simp [detect_patterns, h24]
    rw [hdp]
    constructor
    · simp only [List.not_mem_nil, false_and, exists_const, exists_false,
        false_iff]
      rintro ⟨hc, -, -⟩
      omega
    · intro r hr
      exact absurd hr (List.not_mem_nil r)
  · have hdp : detect_patterns values ts =
        (detect_daily_pattern values ts).toList
          ++ (detect_weekly_pattern values ts).toList := by
      simp [detect_patterns, h24]
    have hweekly : ∀ r : PatternRecord,
        r ∈ (detect_weekly_pattern values ts).toList →
          r.pattern_type = "weekly" := by
      intro r hr
      rw [Option.mem_toList, Option.mem_def] at hr
      exact detect_weekly_pattern_type values ts r hr
    by_cases h12 : (hourlyMeans values ts).length < 12
    · have hd : detect_daily_pattern values ts = none := by
        simp only [detect_daily_pattern]
        rw [if_pos h12]
      rw [hdp, hd]
      simp only [Option.toList_none, List.nil_append]
      constructor
      · constructor
        · rintro ⟨r, hr, hty⟩
          rw [hweekly r hr] at hty
          exact absurd hty (by decide)
        · rintro ⟨-, hc, -⟩
          omega
      · intro r hr hty
        rw [hweekly r hr] at hty
        exact absurd hty (by decide)
    · by_cases hcond : variance values * (1/10) <
          variance (hourlyMeans values ts)
      · have hd : detect_daily_pattern values ts =
            some ⟨"daily", variance (hourlyMeans values ts),
              min 1 (variance (hourlyMeans values ts) / variance values)⟩ := by
          simp only [detect_daily_pattern]
          rw [if_neg h12, if_pos hcond]
        rw [hdp, hd]
        constructor
        · constructor
          · intro _
            exact ⟨by omega, by omega, hcond⟩
          · intro _
            refine ⟨⟨"daily", variance (hourlyMeans values ts),
              min 1 (variance (hourlyMeans values ts) / variance values)⟩,
              ?_, rfl⟩
            simp
        · intro r hr hty
          rcases List.mem_append.mp hr with h1 | h2
          · simp only [Option.toList_some, List.mem_singleton] at h1
            subst h1
            exact ⟨rfl, rfl⟩
          · rw [hweekly r h2] at hty
            exact absurd hty (by decide)
      · have hd : detect_daily_pattern values ts = none := by
          simp only [detect_daily_pattern]
          rw [if_neg h12, if_neg hcond]
        rw [hdp, hd]
        simp only [Option.toList_none, List.nil_append]
        constructor
        · constructor
          · rintro ⟨r, hr, hty⟩
            rw [hweekly r hr] at hty
            exact absurd hty (by decide)
          · rintro ⟨-, -, hc⟩
            exact absurd hc hcond
        · intro r hr hty
          rw [hweekly r hr] at hty
          exact absurd hty (by decide)

/-- Witness for `detect_patterns_daily_spec`: 24 readings alternating 0 and
1 across the 24 hours of the day produce a record with
`pattern_type = "daily"`. -/
theorem detect_patterns_daily_spec_witness :
    ∃ r ∈ detect_patterns dailyPatternValues dailyPatternTimes,
      r.pattern_type = "daily" := by
  have hfil :
      ((dailyPatternTimes.map TS.hour).dedup).map
        (fun h => (((dailyPatternTimes.zip dailyPatternValues).filter
          (fun p => p.1.hour == h)).map Prod.snd)) =
      [[0], [1], [0], [1], [0], [1], [0], [1], [0], [1], [0], [1],
       [0], [1], [0], [1], [0], [1], [0], [1], [0], [1], [0], [1]] := by
    decide
  have hhm : hourlyMeans dailyPatternValues dailyPatternTimes =
      dailyPatternValues := by
    unfold hourlyMeans
    rw [show (fun h => mean (((dailyPatternTimes.zip
        dailyPatternValues).filter (fun p => p.1.hour == h)).map Prod.snd)) =
      mean ∘ (fun h => (((dailyPatternTimes.zip dailyPatternValues).filter
        (fun p => p.1.hour == h)).map Prod.snd)) from rfl]
    rw [← List.map_map, hfil]
    norm_num [mean, dailyPatternValues]
  apply (detect_patterns_daily_spec dailyPatternValues dailyPatternTimes
    rfl).1.mpr
  refine ⟨by decide, by decide, ?_⟩
  rw [hhm]
  norm_num [variance, mean, dailyPatternValues]

lemma split_idx_le (n : ℕ) : split_idx n ≤ n := by
  unfold split_idx
  omega

/-- C3: training returns `insufficient_data` on fewer than 100 raw rows,
`insufficient_features` when feature construction fails or yields fewer
than 50 usable rows, `success` with the metrics and the 80/20 sample
counts when the model segment succeeds, `error` with the message when it
raises — and in every case a structured result, never an escaped
exception. -/
theorem train_water_level_model_spec {D : Type}
    (transform : StandardScaler → List ℚ → List ℚ)
    (fitEval : List (List ℚ) → List ℚ → List (List ℚ) → List ℚ →
      Except String (ℚ × ℚ))
    (data : List D)
    (prepare : List D → Option (List (List ℚ) × List ℚ)) :
    (data.length < 100 →
      train_water_level_model transform fitEval data prepare =
        .insufficient_data)
    ∧ (100 ≤ data.length → prepare data = none →
      train_water_level_model transform fitEval data prepare =
        .insufficient_features)
    ∧ (∀ X y, 100 ≤ data.length → prepare data = some (X, y) →
        X.length < 50 →
      train_water_level_model transform fitEval data prepare =
        .insufficient_features)
    ∧ (∀ X y msg, 100 ≤ data.length → prepare data = some (X, y) →
        50 ≤ X.length →
        fitEval (split_and_scale transform X y).X_train_scaled
            (split_and_scale transform X y).y_train
            (split_and_scale transform X y).X_test_scaled
            (split_and_scale transform X y).y_test = .error msg →
      train_water_level_model transform fitEval data prepare = .error msg)
    ∧ (∀ X y mae rmse, 100 ≤ data.length → prepare data = some (X, y) →
        50 ≤ X.length →
        fitEval (split_and_scale transform X y).X_train_scaled
            (split_and_scale transform X y).y_train
            (split_and_scale transform X y).X_test_scaled
            (split_and_scale transform X y).y_test = .ok (mae, rmse) →
      train_water_level_model transform fitEval data prepare =
        .success mae rmse (split_idx X.length)
          (X.length - split_idx X.length))
    ∧ (train_water_level_model transform fitEval data prepare =
          .insufficient_data
        ∨ train_water_level_model transform fitEval data prepare =
          .insufficient_features
        ∨ (∃ mae rmse n m,
            train_water_level_model transform fitEval data prepare =
              .success mae rmse n m)
        ∨ (∃ msg, train_water_level_model transform fitEval data prepare =
            .error msg)) := by
  refine ⟨?_, ?_, ?_, ?_, ?_, ?_⟩
  · intro h
    simp [train_water_level_model, h]
  · intro h hp
    rw [train_water_level_model, if_neg (not_lt.mpr h), hp]
  · intro X y h hp hX
    rw [train_water_level_model, if_neg (not_lt.mpr h), hp]
    simp [hX]
  · intro X y msg h hp hX hf
    rw [train_water_level_model, if_neg (not_lt.mpr h), hp]
    simp only [if_neg (not_lt.mpr hX)]
    rw [hf]
  · intro X y mae rmse h hp hX hf
    rw [train_water_level_model, if_neg (not_lt.mpr h), hp]
    simp only [if_neg (not_lt.mpr hX)]
    rw [hf]
    have h1 : (split_and_scale transform X y).X_train.length =
        split_idx X.length := by
      simp only [split_and_scale, List.length_take]
      exact min_eq_left (split_idx_le X.length)
    have h2 : (split_and_scale transform X y).X_test.length =
        X.length - split_idx X.length := by
      simp only [split_and_scale, List.length_drop]
    rw [h1, h2]
  · rcases htr : train_water_level_model transform fitEval data prepare with
      _ | _ | ⟨mae, rmse, n, m⟩ | msg
    · exact Or.inl rfl
    · exact Or.inr (Or.inl rfl)
    · exact Or.inr (Or.inr (Or.inl ⟨mae, rmse, n, m, rfl⟩))
    · exact Or.inr (Or.inr (Or.inr ⟨msg, rfl⟩))

/-- Witness for `train_water_level_model_spec`: an empty fetch reports
`insufficient_data`. -/
theorem train_water_level_model_spec_witness :
    train_water_level_model (fun _ r => r) (fun _ _ _ _ => .ok (0, 0))
      ([] : List Unit) (fun _ => none) = .insufficient_data :=
  (train_water_level_model_spec (fun _ r => r) (fun _ _ _ _ => .ok (0, 0))
    ([] : List Unit) (fun _ => none)).1 (by norm_num)

/-- C6: the split of the feature table is chronological at the 80% index —
training rows are exactly the first `split_idx` rows of `X` in order,
evaluation rows exactly the remaining trailing rows in order (never a
shuffle) — the scaler is fitted on the training split only (replacing the
trailing rows does not change it), and the same fitted scaler is applied
to both splits. -/
theorem split_and_scale_spec (transform : StandardScaler → List ℚ → List ℚ)
    (X : List (List ℚ)) (y : List ℚ) :
    ((split_and_scale transform X y).X_train
        ++ (split_and_scale transform X y).X_test = X)
    ∧ (split_and_scale transform X y).X_train.length = split_idx X.length
    ∧ (∀ i, i < split_idx X.length →
        (split_and_scale transform X y).X_train[i]? = X[i]?)
    ∧ (∀ j, (split_and_scale transform X y).X_test[j]? =
        X[split_idx X.length + j]?)
    ∧ (split_and_scale transform X y).scaler =
        StandardScaler.fit (X.take (split_idx X.length))
    ∧ (∀ Y : List (List ℚ), Y.length = X.length - split_idx X.length →
        (split_and_scale transform
            (X.take (split_idx X.length) ++ Y) y).scaler =
          (split_and_scale transform X y).scaler)
    ∧ (split_and_scale transform X y).X_train_scaled =
        (split_and_scale transform X y).X_train.map
          (transform (split_and_scale transform X y).scaler)
    ∧ (split_and_scale transform X y).X_test_scaled =
        (split_and_scale transform X y).X_test.map
          (transform (split_and_scale transform X y).scaler) := by
  have hlen : (X.take (split_idx X.length)).length = split_idx X.length := by
    rw [List.length_take]
    exact min_eq_left (split_idx_le X.length)
  refine ⟨?_, ?_, ?_, ?_, rfl, ?_, rfl, rfl⟩
  · exact List.take_append_drop _ X
  · exact hlen
  · intro i hi
    simp only [split_and_scale]
    rw [List.getElem?_take]
    simp [hi]
  · intro j
    simp only [split_and_scale]
    rw [List.getElem?_drop]
  · intro Y hY
    have hnewlen : (X.take (split_idx X.length) ++ Y).length = X.length := by
      rw [List.length_append, hlen, hY]
      have := split_idx_le X.length
      omega
    simp only [split_and_scale, hnewlen]
    rw [List.take_append_eq_append_take, hlen]
    simp [Nat.sub_self, List.take_take]

/-- Witness for `split_and_scale_spec`: on a five-row table the scaler is
unchanged when the trailing 20% is replaced. -/
theorem split_and_scale_spec_witness :
    (split_and_scale (fun _ r => r)
        ((([[1],[2],[3],[4],[5]] : List (List ℚ)).take
          (split_idx ([[1],[2],[3],[4],[5]] : List (List ℚ)).length))
          ++ [[9]]) []).scaler =
      (split_and_scale (fun _ r => r)
        ([[1],[2],[3],[4],[5]] : List (List ℚ)) []).scaler :=
  (split_and_scale_spec (fun _ r => r) [[1],[2],[3],[4],[5]]
    []).2.2.2.2.2.1 [[9]] (by decide)

lemma predict_loop_band {F : Type} (ffn : List ℚ → ℕ → Option F)
    (g : F → ℚ) :
    ∀ (fuel : ℕ) (ctx : List ℚ) (h0 : ℕ) (pt : ForecastPoint),
      pt ∈ predict_loop ffn g ctx h0 fuel →
        pt.confidence_upper - pt.predicted_level
            = pt.predicted_level - pt.confidence_lower
          ∧ pt.confidence_upper - pt.predicted_level
            = (1/10) * |pt.predicted_level| := by
  intro fuel
  induction fuel with
  | zero =>
    intro ctx h0 pt hpt
    simp [predict_loop] at hpt
  | succ n ih =>
    intro ctx h0 pt hpt
    simp only [predict_loop] at hpt
    cases hf : ffn ctx h0 with
    | none =>
      rw [hf] at hpt
      simp at hpt
    | some feats =>
      rw [hf] at hpt
      simp only [List.mem_cons] at hpt
      rcases hpt with rfl | hpt
      · constructor <;> simp
      · exact ih _ _ _ hpt

lemma predict_loop_stop {F : Type} (ffn : List ℚ → ℕ → Option F)
    (g : F → ℚ) :
    ∀ (fuel : ℕ) (ctx : List ℚ) (h0 : ℕ),
      (predict_loop ffn g ctx h0 fuel).length ≤ fuel
      ∧ ((predict_loop ffn g ctx h0 fuel).length < fuel →
          ffn (ctx ++ (predict_loop ffn g ctx h0 fuel).map
            ForecastPoint.predicted_level)
            (h0 + (predict_loop ffn g ctx h0 fuel).length) = none) := by
  intro fuel
  induction fuel with
  | zero =>
    intro ctx h0
    simp [predict_loop]
  | succ n ih =>
    intro ctx h0
    cases hf : ffn ctx h0 with
    | none =>
      constructor
      · simp [predict_loop, hf]
      · intro _
        simp only [predict_loop, hf, List.length_nil, List.map_nil,
          List.append_nil, Nat.add_zero]
    | some feats =>
      have ihs := ih (ctx ++ [g feats]) (h0 + 1)
      constructor
      · simp only [predict_loop, hf, List.length_cons]
        omega
      · intro hlt
        simp only [predict_loop, hf, List.length_cons, List.map_cons] at hlt ⊢
        have harr : h0 + ((predict_loop ffn g (ctx ++ [g feats]) (h0 + 1)
            n).length + 1) =
            (h0 + 1) + (predict_loop ffn g (ctx ++ [g feats])
              (h0 + 1) n).length := by
          omega

        rw [harr, List.append_cons]
        rw [show (ctx ++ [(⟨g feats,
            g feats - (1/10) * |g feats|,
            g feats + (1/10) * |g feats|, h0⟩ :
              ForecastPoint).predicted_level]) = ctx ++ [g feats] from rfl]
        exact ihs.2 (by omega)

/-- C7: every forecast point returned by `predict_water_level` has a band
symmetric about the prediction with half-width `0.1 * |prediction|`, and
the hour-by-hour loop stops early exactly at a feature-construction
failure: its output never exceeds the horizon, and whenever it is shorter,
the feature builder returned `None` on the context reached after the
points produced so far (seed plus the loop's own predictions). -/
theorem predict_confidence_band_spec {M S F : Type}
    (ffn : List ℚ → ℕ → Option F) (g : M → S → F → ℚ)
    (registry : Option (M × S)) (disk_model : Option M)
    (disk_scaler : Option S) (recent : List ℚ) (horizon_hours : ℕ) :
    (∀ pt ∈ (predict_water_level ffn g registry disk_model disk_scaler
        recent horizon_hours).1,
      pt.confidence_upper - pt.predicted_level
          = pt.predicted_level - pt.confidence_lower
        ∧ pt.confidence_upper - pt.predicted_level
          = (1/10) * |pt.predicted_level|)
    ∧ (∀ (g' : F → ℚ) (ctx : List ℚ) (h0 fuel : ℕ),
        (predict_loop ffn g' ctx h0 fuel).length ≤ fuel
        ∧ ((predict_loop ffn g' ctx h0 fuel).length < fuel →
            ffn (ctx ++ (predict_loop ffn g' ctx h0 fuel).map
              ForecastPoint.predicted_level)
              (h0 + (predict_loop ffn g' ctx h0 fuel).length) = none)) := by
  constructor
  · intro pt hpt
    unfold predict_water_level at hpt
    split at hpt
    · simp at hpt
    · rename_i ms heq
      split at hpt
      · simp at hpt
      · exact predict_loop_band ffn (g ms.1 ms.2) horizon_hours recent 1
          pt hpt
  · intro g' ctx h0 fuel
    exact predict_loop_stop ffn g' fuel ctx h0

/-- Witness for `predict_confidence_band_spec`: a one-step prediction run
with a constant-zero model produces the point `⟨0, 0, 0, 1⟩` and the
theorem yields its band symmetry. -/
theorem predict_confidence_band_spec_witness :
    ((⟨0, 0, 0, 1⟩ : ForecastPoint).confidence_upper
        - (⟨0, 0, 0, 1⟩ : ForecastPoint).predicted_level
      = (⟨0, 0, 0, 1⟩ : ForecastPoint).predicted_level
        - (⟨0, 0, 0, 1⟩ : ForecastPoint).confidence_lower)
    ∧ ((⟨0, 0, 0, 1⟩ : ForecastPoint).confidence_upper
        - (⟨0, 0, 0, 1⟩ : ForecastPoint).predicted_level
      = (1/10) * |(⟨0, 0, 0, 1⟩ : ForecastPoint).predicted_level|) := by
  have hmem : (⟨0, 0, 0, 1⟩ : ForecastPoint) ∈
      (predict_water_level (fun (_ : List ℚ) (_ : ℕ) => some ())
        (fun (_ _ : Unit) (_ : Unit) => (0 : ℚ)) (some ((), ()))
        (none : Option Unit) (none : Option Unit) [1] 1).1 := by
    norm_num [predict_water_level, predict_loop]
  exact (predict_confidence_band_spec (fun (_ : List ℚ) (_ : ℕ) => some ())
    (fun (_ _ : Unit) (_ : Unit) => (0 : ℚ)) (some ((), ()))
    (none : Option Unit) (none : Option Unit) [1] 1).1 _ hmem

/-- C10: with no registry entry and no complete model/scaler artifact pair
on disk, `predict_water_level` returns the empty list and leaves the
registry empty (training is never triggered: the registry after any call
is exactly the prior entry or the pair loaded from disk); and with no
recent seed readings it likewise returns the empty list. -/
theorem predict_without_model_spec {M S F : Type}
    (ffn : List ℚ → ℕ → Option F) (g : M → S → F → ℚ)
    (disk_model : Option M) (disk_scaler : Option S)
    (recent : List ℚ) (horizon_hours : ℕ) :
    ((disk_model = none ∨ disk_scaler = none) →
      predict_water_level ffn g none disk_model disk_scaler recent
        horizon_hours = ([], none))
    ∧ (∀ registry : Option (M × S),
        (predict_water_level ffn g registry disk_model disk_scaler []
          horizon_hours).1 = [])
    ∧ (∀ registry : Option (M × S),
        (predict_water_level ffn g registry disk_model disk_scaler recent
          horizon_hours).2 =
          registry.orElse (fun _ => load_model disk_model disk_scaler)) := by
  refine ⟨?_, ?_, ?_⟩
  · intro hmiss
    have hload : load_model disk_model disk_scaler =
        (none : Option (M × S)) := by
      rcases hmiss with h | h
      · subst h
        cases disk_scaler <;> rfl
      · subst h
        cases disk_model <;> rfl
    unfold predict_water_level
    rw [show (none : Option (M × S)).orElse
        (fun _ => load_model disk_model disk_scaler) =
      load_model disk_model disk_scaler from rfl, hload]
  · intro registry
    unfold predict_water_level
    split
    · rfl
    · simp
  · intro registry
    unfold predict_water_level
    split
    · rename_i heq
      rw [heq]
    · rename_i ms heq
      rw [heq]
      by_cases hrec : recent = []
      · rw [if_pos hrec]
      · rw [if_neg hrec]

/-- Witness for `predict_without_model_spec`: no registry entry and no
artifacts on disk yield the empty forecast and an unchanged registry. -/
theorem predict_without_model_spec_witness :
    predict_water_level (fun (_ : List ℚ) (_ : ℕ) => some ())
      (fun (_ _ : Unit) (_ : Unit) => (0 : ℚ)) none
      (none : Option Unit) (none : Option Unit) [1] 24 = ([], none) :=
  (predict_without_model_spec (fun (_ : List ℚ) (_ : ℕ) => some ())
    (fun (_ _ : Unit) (_ : Unit) => (0 : ℚ)) none none [1] 24).1
    (Or.inl rfl)

end Groundwater
